import Mathlib

/-!
Verification of the svc-common-go multiplexed server core against its
natural-language specification.

The embedding below is a shallow model of the Go sources:

* package server (src/unnamed/part_001): the newer Server.Run and
  Server.Shutdown, plus the older Server.Run variant in the same file;
* package grpc (src/unnamed/part_000): GRPCService.GracefulStop;
* package http (src/pkg/http/http.go): the newer http.New.

Go errors are modelled as Option String (none is Go nil), concurrent
completion as explicit completion-ordered lists of unit results, and the
mutable Server fields touched by Run and Shutdown as an explicit record
that the lifecycle steps transform.
-/

namespace SvcCommon

/-- A Go error value: none models a nil error. -/
abbrev GoErr := Option String

/-! ### errgroup model

golang.org/x/sync/errgroup: each function passed to g.Go runs as a
goroutine; the first goroutine to return a non-nil error stores it via a
sync.Once (and cancels the derived context); g.Wait joins all goroutines
and returns that stored first error, or nil when every goroutine
returned nil.  We model the goroutine returns as a list of GoErr values
in completion order; firstErr is the value g.Wait returns. -/
def firstErr : List GoErr → GoErr
  | [] => none
  | none :: rs => firstErr rs
  | some e :: _ => some e

/-- State of one finished invocation of the newer Server.Run at the
point g.Wait has returned: the completion-ordered results of the spawned
concurrent units (the gRPC server task, the HTTP server task, the cmux
serve unit -- whichever were spawned), and the value ctx.Err() has when
Wait returns (some when the shared derived context was cancelled). -/
structure RunOutcome where
  results : List GoErr
  ctxErr : GoErr

/-- Embeds the tail of the newer Server.Run: err := g.Wait(); the error
log is conditional, but err is returned unconditionally. -/
def runReturn (o : RunOutcome) : GoErr := firstErr o.results

/-- Embeds the logging guard in the newer Server.Run: the error-level
log line fires only when err != nil and ctx.Err() == nil. -/
def runLogsError (o : RunOutcome) : Bool :=
  (firstErr o.results).isSome && o.ctxErr.isNone

/-- The results list rs holds e at position i and only nil results
before it: e is the first non-nil error in completion order. -/
def FirstErrAt (rs : List GoErr) (e : String) : Prop :=
  ∃ i, ∃ h : i < rs.length, rs.get ⟨i, h⟩ = some e ∧
    ∀ j, ∀ hj : j < i, rs.get ⟨j, Nat.lt_trans hj h⟩ = none

/-! ### Spawned concurrent units of Server.Run

Both variants of Server.Run spawn units through g.Go; which units are
spawned depends on the SERVICE_PROTOCOL environment variable (read
inside Run via os.Getenv) and, when the HTTP branch is taken, on
whether http.New succeeded.  httpNewOk models the err == nil outcome of
http.New.  runSpawns is the newer variant (lines 49-103 of the server
file): grpc task unless protocol is exactly "http", then http task
unless protocol is exactly "grpc" (early return on http.New error,
before any further spawn), then the cmux serve unit unconditionally.
runSpawnsOld is the older variant (lines 163-190): same grpc and http
branches (log.Fatal aborts on http.New error), but the cmux serve unit
is spawned inside the protocol-not-grpc branch. -/

inductive UnitKind
  | grpcTask
  | httpTask
  | cmuxServe
  deriving DecidableEq, Repr

def runSpawns (protocol : String) (httpNewOk : Bool) : List UnitKind :=
  let g := if protocol ≠ "http" then [UnitKind.grpcTask] else []
  if protocol ≠ "grpc" then
    if httpNewOk then g ++ [UnitKind.httpTask, UnitKind.cmuxServe]
    else g
  else g ++ [UnitKind.cmuxServe]

def runSpawnsOld (protocol : String) (httpNewOk : Bool) : List UnitKind :=
  let g := if protocol ≠ "http" then [UnitKind.grpcTask] else []
  if protocol ≠ "grpc" then
    if httpNewOk then g ++ [UnitKind.httpTask, UnitKind.cmuxServe]
    else g
  else g

/-- The newer Server.Run reads the protocol mode from the ambient
environment inside Run itself: protocol := os.Getenv("SERVICE_PROTOCOL").
env models the process environment as a map from variable names to
values. -/
def runSpawnsEnv (env : String → String) (httpNewOk : Bool) : List UnitKind :=
  runSpawns (env "SERVICE_PROTOCOL") httpNewOk

/-- The protocol Server Tasks among the spawned units (the cmux serve
unit is the accept loop, not a Server Task). -/
def serverTasks (us : List UnitKind) : List UnitKind :=
  us.filter (fun u => u ≠ UnitKind.cmuxServe)

/-! ### Lifecycle state of Run and Shutdown

The mutable pieces of the Server that Run and Shutdown touch, as an
explicit record.  Run installs s.cancel (cancelSet), spawns a watcher
goroutine that closes the listener when the shared context is done, and
Shutdown (lines 106-124) runs: if s.cancel != nil then s.cancel();
then in a goroutine GRPCServer.GracefulStop() followed by
s.Listener.Close() and close(done); then selects on done versus
ctx.Done().  No code path performs a graceful stop of the HTTP
sub-server (httpGracefulStopped is set by no step), and no closed flag
guards the listener closes: each Close call is unconditional and its
error is discarded with a blank assignment. -/

structure ServerState where
  cancelSet : Bool
  ctxCancelled : Bool
  grpcStopped : Bool
  httpGracefulStopped : Bool
  httpEnabled : Bool
  listenerClosed : Bool
  listenerCloseCount : Nat
  deriving DecidableEq, Repr

/-- Go statement in Shutdown: if s.cancel != nil then s.cancel().
Cancelling an already-cancelled context is a no-op on the done signal. -/
def cancelStep (st : ServerState) : ServerState :=
  if st.cancelSet then { st with ctxCancelled := true } else st

/-- One call of s.Listener.Close().  Go net.Listener.Close on an
already-closed listener returns an error; both call sites discard it,
so the model only records that a close was performed. -/
def closeListener (st : ServerState) : ServerState :=
  { st with listenerClosed := true,
            listenerCloseCount := st.listenerCloseCount + 1 }

/-- The watcher goroutine spawned by the newer Run: it blocks on
ctx.Done() and, once the shared context is cancelled, closes the
listener (unconditionally, no closed check). -/
def watcherFire (st : ServerState) : ServerState :=
  if st.ctxCancelled then closeListener st else st

/-- GRPCService.GracefulStop (grpc package, lines 51-54): logs and
calls the underlying grpc.Server.GracefulStop, which is idempotent. -/
def gracefulStopGRPC (st : ServerState) : ServerState :=
  { st with grpcStopped := true }

/-- The body of the goroutine spawned by Shutdown:
GRPCServer.GracefulStop(); s.Listener.Close(); close(done). -/
def shutdownBody (st : ServerState) : ServerState :=
  closeListener (gracefulStopGRPC st)

/-- Server.Shutdown(ctx).  timedOut models ctx.Done() winning the
select before the goroutine closes done; in that case Shutdown returns
ctx.Err() (modelled by ctxErr) and the goroutine's effects are not yet
observed.  Otherwise the goroutine completed and Shutdown returns nil.
The done channel is a fresh local on every call, so the model carries
no channel state. -/
def shutdown (st : ServerState) (timedOut : Bool) (ctxErr : String) :
    ServerState × GoErr :=
  let st1 := cancelStep st
  if timedOut then (st1, some ctxErr)
  else (shutdownBody st1, none)

/-- The observable lifecycle flags (the close counter is bookkeeping
for counting Close calls, not a program observable). -/
def observables (st : ServerState) : Bool × Bool × Bool × Bool :=
  (st.ctxCancelled, st.grpcStopped, st.httpGracefulStopped, st.listenerClosed)

/-- A Server inside Run with both sub-servers enabled, before any
shutdown activity. -/
def runningState : ServerState :=
  { cancelSet := true, ctxCancelled := false, grpcStopped := false,
    httpGracefulStopped := false, httpEnabled := true,
    listenerClosed := false, listenerCloseCount := 0 }

/-- An execution interleaving permitted by the code: Shutdown performs
s.cancel(); the Run watcher goroutine wakes on ctx.Done() and closes
the listener; then the Shutdown goroutine runs GracefulStop and closes
the listener again. -/
def c4Scenario : ServerState :=
  shutdownBody (watcherFire (cancelStep runningState))

/-! ### http.New (src/pkg/http/http.go, newer variant, lines 22-54) -/

/-- One entry of svc.HTTPHandlers as consumed by the newer http.New:
a method string, a path, and handler functions (outside the model). -/
structure HTTPRoute where
  method : String
  path : String
  deriving DecidableEq, Repr

/-- The part of service.Service that http.New consumes. -/
structure ServiceModel where
  httpHandlers : List HTTPRoute

/-- The observable outcome of building the Gin engine in http.New: the
routes registered on the /api/version group, in registration order, and
the paths for which the unrecognized-method warning was logged. -/
structure HTTPServiceModel where
  groupPrefix : String
  registered : List HTTPRoute
  warnedPaths : List String
  deriving DecidableEq, Repr

/-- The switch in http.New recognizes exactly the four Go constants
http.MethodGet, http.MethodPut, http.MethodPost, http.MethodDelete. -/
def recognizedMethod (m : String) : Bool :=
  m = "GET" || m = "PUT" || m = "POST" || m = "DELETE"

/-- One iteration of the for-range loop over svc.HTTPHandlers: a
recognized method registers the route on the group; the default branch
logs a warning naming the path and registers nothing. -/
def registerStep (acc : HTTPServiceModel) (r : HTTPRoute) : HTTPServiceModel :=
  if recognizedMethod r.method then
    { acc with registered := acc.registered ++ [r] }
  else
    { acc with warnedPaths := acc.warnedPaths ++ [r.path] }

/-- http.New(svc, version): error when svc is nil; otherwise builds the
engine, mounts the group at /api/version, walks svc.HTTPHandlers in
order, and returns the service with a nil error. -/
def httpNew (svc : Option ServiceModel) (version : String) :
    Except String HTTPServiceModel :=
  match svc with
  | none => Except.error "service cannot be nil"
  | some s =>
      Except.ok (s.httpHandlers.foldl registerStep
        { groupPrefix := "/api/" ++ version, registered := [], warnedPaths := [] })

/-! ### Classification lookahead and replay

Modelled from the spec: the Byte-Pattern Matcher and the Replay Buffer
of sections 4.1 and 4.2 live in the third-party cmux dependency
(github.com/soheilhy/cmux), not under src/; Server.Run only wires them
up.  Per the spec, classification reads a bounded lookahead from the
connection without discarding bytes, and the buffered connection
replays those bytes ahead of fresh socket reads to whichever handler
wins the connection.  Bytes are modelled as Nat values. -/

/-- A connection after classification: the lookahead bytes captured by
the matcher, to be replayed first, and the bytes not yet read from the
socket. -/
structure BufConn where
  buffer : List Nat
  rest : List Nat
  deriving DecidableEq, Repr

/-- Classification consumes the first n bytes of the stream into the
replay buffer; the matcher itself never discards bytes. -/
def sniff (n : Nat) (stream : List Nat) : BufConn :=
  { buffer := stream.take n, rest := stream.drop n }

/-- Bytes the consumer has not yet observed: replay buffer first, then
the socket. -/
def remainingBytes (c : BufConn) : List Nat :=
  c.buffer ++ c.rest

/-- One read of at most k bytes by the winning protocol handler: while
the replay buffer is non-empty a read is served from it alone;
afterwards reads come from the socket. -/
def readConn (c : BufConn) (k : Nat) : List Nat × BufConn :=
  if c.buffer.isEmpty then
    (c.rest.take k, { buffer := [], rest := c.rest.drop k })
  else
    (c.buffer.take k, { buffer := c.buffer.drop k, rest := c.rest })

/-- A sequence of handler reads with the given request sizes, returning
all delivered bytes in order and the final connection state. -/
def runReads : BufConn → List Nat → List Nat × BufConn
  | c, [] => ([], c)
  | c, k :: ks =>
      ((readConn c k).1 ++ (runReads (readConn c k).2 ks).1,
       (runReads (readConn c k).2 ks).2)

/-! ### Concrete inputs used by counterexamples and witnesses -/

/-- Closure sentinels the underlying libraries return once the listener
is closed: cmux ErrListenerClosed, grpc ErrServerStopped, and net/http
ErrServerClosed. -/
def closureErrs : List String :=
  ["mux: listener closed", "grpc: the server has been stopped",
   "http: Server closed"]

/-- A finished Run in which shutdown was initiated (the shared context
is cancelled, so ctx.Err() is non-nil) and both units exited with the
closed condition of their listener. -/
def c2Outcome : RunOutcome :=
  { results := [some "mux: listener closed",
                some "grpc: the server has been stopped"],
    ctxErr := some "context canceled" }

/-- A process environment selecting http-only mode. -/
def envHTTPOnly : String → String := fun _ => "http"

/-- A process environment selecting rpc-only mode (the code spells the
mode value grpc). -/
def envGRPCOnly : String → String := fun _ => "grpc"

/-- A second environment agreeing with envHTTPOnly on SERVICE_PROTOCOL
but differing on every other variable. -/
def envHTTPOnlyNoisy : String → String :=
  fun v => if v = "SERVICE_PROTOCOL" then "http" else "noise"

/-- Number of cmux serve units among the spawned units. -/
def countCmux (us : List UnitKind) : Nat :=
  (us.filter (fun u => u = UnitKind.cmuxServe)).length

/-! ## Helper lemmas -/

theorem firstErr_eq_none_iff (rs : List GoErr) :
    firstErr rs = none ↔ ∀ r ∈ rs, r = none := by
  induction rs with
  | nil => simp [firstErr]
  | cons r rs ih =>
    cases r with
    | none => simpa [firstErr] using ih
    | some e => simp [firstErr]

theorem firstErr_some_firstErrAt (rs : List GoErr) (e : String)
    (h : firstErr rs = some e) : FirstErrAt rs e := by
  induction rs with
  | nil => simp [firstErr] at h
  | cons r rs ih =>
    cases r with
    | some e0 =>
      simp [firstErr] at h
      exact ⟨0, by simp, by simp [h], fun j hj => absurd hj (Nat.not_lt_zero j)⟩
    | none =>
      obtain ⟨i, hi, hget, hprev⟩ := ih h
      refine ⟨i + 1, by simpa using Nat.succ_lt_succ hi, by simpa using hget, ?_⟩
      intro j hj
      cases j with
      | zero => simp
      | succ j => simpa using hprev j (Nat.lt_of_succ_lt_succ hj)

theorem registerStep_fold (rs : List HTTPRoute) (acc : HTTPServiceModel) :
    rs.foldl registerStep acc =
      { groupPrefix := acc.groupPrefix,
        registered :=
          acc.registered ++ rs.filter (fun r => recognizedMethod r.method),
        warnedPaths :=
          acc.warnedPaths ++
            (rs.filter (fun r => !recognizedMethod r.method)).map
              (fun r => r.path) } := by
  induction rs generalizing acc with
  | nil => simp
  | cons r rs ih =>
    rcases hb : recognizedMethod r.method with _ | _ <;>
      simp [registerStep, hb, ih, List.filter_cons]

theorem remainingBytes_sniff (n : Nat) (stream : List Nat) :
    remainingBytes (sniff n stream) = stream := by
  simp [remainingBytes, sniff]

theorem readConn_inv (c : BufConn) (k : Nat) :
    (readConn c k).1 ++ remainingBytes (readConn c k).2 = remainingBytes c := by
  rcases c with ⟨buf, rest⟩
  cases buf with
  | nil => simp [readConn, remainingBytes]
  | cons b bs => simp [readConn, remainingBytes, ← List.append_assoc]

theorem runReads_inv (ks : List Nat) (c : BufConn) :
    (runReads c ks).1 ++ remainingBytes (runReads c ks).2 = remainingBytes c := by
  induction ks generalizing c with
  | nil => simp [runReads]
  | cons k ks ih =>
    simp only [runReads]
    rw [List.append_assoc, ih, readConn_inv]

/-! ## Claim theorems -/

/-- C1: when every spawned unit of Server.Run has finished, Run (which
returns g.Wait of the errgroup) returns nil exactly when every unit
returned nil, and any returned error is the first non-nil error in
completion order: only nil results precede it, so errors returned later
by other units are discarded. -/
theorem run_first_error_wins (o : RunOutcome) :
    (runReturn o = none ↔ ∀ r ∈ o.results, r = none) ∧
    ∀ e : String, runReturn o = some e → FirstErrAt o.results e :=
  ⟨firstErr_eq_none_iff o.results,
   fun e h => firstErr_some_firstErrAt o.results e h⟩

/-- Witness for C1 at a concrete finished run: the second unit failed
first, the third unit's later error is discarded. -/
theorem run_first_error_wins_witness :
    FirstErrAt [none, some "grpc: the server has been stopped",
                some "mux: listener closed"]
      "grpc: the server has been stopped" :=
  (run_first_error_wins
      { results := [none, some "grpc: the server has been stopped",
                    some "mux: listener closed"],
        ctxErr := some "context canceled" }).2
    "grpc: the server has been stopped" rfl

/-- C2 counterexample: a run in which shutdown was initiated (ctx.Err()
is non-nil) and every unit exited with a closed condition of its
listener, yet Server.Run returns the first closure error rather than
nil: Run returns g.Wait unconditionally, so closure errors observed
after shutdown are surfaced, not suppressed (the tests assert an error
in exactly this situation). -/
theorem run_shutdown_closure_cex :
    c2Outcome.ctxErr.isSome = true ∧
    (∀ r ∈ c2Outcome.results, ∃ e ∈ closureErrs, r = some e) ∧
    runReturn c2Outcome = some "mux: listener closed" := by
  refine ⟨rfl, ?_, rfl⟩
  decide

/-- C2 amended: when shutdown has been initiated (ctx.Err() non-nil),
closure errors are still returned by Run; what is suppressed is only
the error-level log line, which fires solely when ctx.Err() is nil, and
the value Run returns does not depend on ctx.Err() at all. -/
theorem run_shutdown_closure_amended (o : RunOutcome)
    (h : o.ctxErr.isSome = true) :
    runLogsError o = false ∧
    runReturn { results := o.results, ctxErr := none } = runReturn o := by
  obtain ⟨x, hx⟩ := Option.isSome_iff_exists.mp h
  exact ⟨by simp [runLogsError, hx], rfl⟩

/-- Witness for the amended C2 at the concrete shutdown-initiated run. -/
theorem run_shutdown_closure_amended_witness :
    runLogsError c2Outcome = false ∧
    runReturn { results := c2Outcome.results, ctxErr := none } =
      runReturn c2Outcome :=
  run_shutdown_closure_amended c2Outcome rfl

/-- C3 counterexample: a successful, in-deadline Shutdown on a server
with the HTTP sub-server enabled returns nil without ever performing a
graceful stop of the HTTP sub-server (only GRPCServer.GracefulStop is
called), and Shutdown on a server whose listener is already closed
closes it again (no if-not-already-closed check). -/
theorem shutdown_http_graceful_cex :
    runningState.httpEnabled = true ∧
    (shutdown runningState false "context deadline exceeded").2 = none ∧
    ((shutdown runningState false "context deadline exceeded").1).httpGracefulStopped
      = false ∧
    ((shutdown { runningState with
                 listenerClosed := true,
                 listenerCloseCount := 1 }
        false "context deadline exceeded").1).listenerCloseCount = 2 := by
  decide

/-- C3 amended: Shutdown cancels the shared internal signal (when Run
has installed it), waits bounded by ctx for the gRPC sub-server alone
to complete GracefulStop followed by an unconditional close of the
root listener, and returns nil on completion or ctx's error on timeout;
the HTTP sub-server receives no graceful stop of its own. -/
theorem shutdown_behavior_amended (st : ServerState) (e : String) :
    shutdown st false e =
      ({ cancelStep st with
         grpcStopped := true,
         listenerClosed := true,
         listenerCloseCount := (cancelStep st).listenerCloseCount + 1 },
       none) ∧
    shutdown st true e = (cancelStep st, some e) ∧
    ((shutdown st false e).1).httpGracefulStopped = st.httpGracefulStopped := by
  rcases st with ⟨cs, cc, gs, hgs, he, lc, n⟩
  cases cs <;>
    simp [shutdown, cancelStep, shutdownBody, gracefulStopGRPC, closeListener]

/-- C4 counterexample: the interleaving in which Shutdown cancels the
shared context, the Run watcher goroutine closes the listener, and the
Shutdown goroutine then closes it again performs two closes of the root
listener, so the listener is not closed exactly once and no
checked-and-set flag prevents the second close. -/
theorem listener_close_once_cex :
    c4Scenario.listenerCloseCount = 2 ∧ c4Scenario.listenerCloseCount ≠ 1 := by
  decide

/-- C4 amended: no closed flag guards the listener close; the Run
watcher and the Shutdown goroutine each call Close unconditionally, so
a cancellation-plus-shutdown interleaving closes the listener twice;
the error of a redundant close is discarded, so Shutdown still returns
nil. -/
theorem listener_close_unguarded_amended :
    c4Scenario.listenerCloseCount = 2 ∧
    (∀ st : ServerState,
      (shutdownBody st).listenerCloseCount = st.listenerCloseCount + 1) ∧
    (∀ st : ServerState, st.ctxCancelled = true →
      (watcherFire st).listenerCloseCount = st.listenerCloseCount + 1) ∧
    (∀ st : ServerState, ∀ e : String, (shutdown st false e).2 = none) := by
  refine ⟨by decide, fun st => rfl, fun st h => ?_, fun st e => rfl⟩
  simp [watcherFire, h, closeListener]

/-- Witness for the amended C4: the watcher closes again even though
the listener is already closed. -/
theorem listener_close_unguarded_witness :
    (watcherFire { runningState with
                   ctxCancelled := true,
                   listenerClosed := true,
                   listenerCloseCount := 1 }).listenerCloseCount = 2 :=
  listener_close_unguarded_amended.2.2.1
    { runningState with
      ctxCancelled := true,
      listenerClosed := true,
      listenerCloseCount := 1 } rfl

/-- C5: with http.New succeeding, protocol mode http spawns only the
HTTP Server Task, mode grpc (the rpc-only mode) spawns only the gRPC
Server Task, and every other mode value (the both mode) spawns both;
the cmux serve unit is the accept loop, not a Server Task. -/
theorem run_protocol_mode_tasks :
    serverTasks (runSpawns "http" true) = [UnitKind.httpTask] ∧
    serverTasks (runSpawns "grpc" true) = [UnitKind.grpcTask] ∧
    ∀ p : String, p ≠ "http" → p ≠ "grpc" →
      serverTasks (runSpawns p true) = [UnitKind.grpcTask, UnitKind.httpTask] := by
  refine ⟨by decide, by decide, fun p h1 h2 => ?_⟩
  simp [runSpawns, serverTasks, h1, h2]

/-- Witness for C5 in the both mode (empty SERVICE_PROTOCOL value). -/
theorem run_protocol_mode_tasks_witness :
    serverTasks (runSpawns "" true) = [UnitKind.grpcTask, UnitKind.httpTask] :=
  run_protocol_mode_tasks.2.2 "" (by decide) (by decide)

/-- C6 counterexample: two executions of the newer Server.Run with
identical explicit inputs (same service, version, listener and a
succeeding http.New) but different ambient environments spawn different
unit sets, because Run itself reads SERVICE_PROTOCOL via os.Getenv on
every invocation. -/
theorem run_ambient_env_cex :
    runSpawnsEnv envHTTPOnly true ≠ runSpawnsEnv envGRPCOnly true := by
  decide

/-- C6 amended: the protocol mode is re-read from the ambient
environment inside each Run invocation, so Run is a function of the
ambient SERVICE_PROTOCOL value: executions with identical explicit
inputs agree whenever that single ambient value agrees, and can differ
when it differs. -/
theorem run_ambient_env_amended (e1 e2 : String → String) (ok : Bool)
    (h : e1 "SERVICE_PROTOCOL" = e2 "SERVICE_PROTOCOL") :
    runSpawnsEnv e1 ok = runSpawnsEnv e2 ok := by
  simp [runSpawnsEnv, h]

/-- Witness for the amended C6: two pointwise different environments
agreeing on SERVICE_PROTOCOL yield the same spawned units. -/
theorem run_ambient_env_amended_witness :
    runSpawnsEnv envHTTPOnly true = runSpawnsEnv envHTTPOnlyNoisy true :=
  run_ambient_env_amended envHTTPOnly envHTTPOnlyNoisy true (by decide)

/-- C7: a second in-deadline Shutdown after a completed one returns nil
and changes none of the observable lifecycle flags; this covers the
pre-Run case as well since the state is arbitrary (when Run never
started, cancelSet is false and the nil-cancel call is skipped by the
guard in the source; the done channel is a fresh local each call, and
each close error is discarded, so no panic or double-close error
exists). -/
theorem shutdown_idempotent (st : ServerState) (e1 e2 : String) :
    (shutdown st false e1).2 = none ∧
    (shutdown (shutdown st false e1).1 false e2).2 = none ∧
    observables (shutdown (shutdown st false e1).1 false e2).1 =
      observables (shutdown st false e1).1 := by
  rcases st with ⟨cs, cc, gs, hgs, he, lc, n⟩
  cases cs <;>
    simp [shutdown, cancelStep, shutdownBody, gracefulStopGRPC,
      closeListener, observables]

/-- C8: for every byte stream, every classification lookahead boundary
and every sequence of handler read sizes, the bytes delivered to the
winning handler followed by the bytes still pending are exactly the
original stream (no loss, duplication or reordering), and a handler
that drains the connection observes the stream bit-for-bit in order. -/
theorem replay_byte_fidelity (stream : List Nat) (n : Nat) (ks : List Nat) :
    (runReads (sniff n stream) ks).1 ++
        remainingBytes (runReads (sniff n stream) ks).2 = stream ∧
    (remainingBytes (runReads (sniff n stream) ks).2 = [] →
      (runReads (sniff n stream) ks).1 = stream) := by
  have h := runReads_inv ks (sniff n stream)
  rw [remainingBytes_sniff] at h
  exact ⟨h, fun hnil => by simpa [hnil] using h⟩

/-- Witness for C8: a lookahead of two bytes split across three reads
still delivers the original stream. -/
theorem replay_byte_fidelity_witness :
    (runReads (sniff 2 [10, 20, 30]) [1, 5, 5]).1 = [10, 20, 30] :=
  (replay_byte_fidelity [10, 20, 30] 2 [1, 5, 5]).2 (by decide)

/-- C9: in grpc-only mode the newer Run spawns the cmux serve unit
exactly once while the older Run variant never spawns it, so their unit
sets differ there; in general the newer Run spawns cmux exactly once
whenever the mode is grpc or http.New succeeded, and the older variant
spawns it only outside grpc-only mode. -/
theorem cmux_spawn_new_vs_old :
    (∀ ok : Bool, countCmux (runSpawns "grpc" ok) = 1 ∧
      countCmux (runSpawnsOld "grpc" ok) = 0 ∧
      runSpawns "grpc" ok ≠ runSpawnsOld "grpc" ok) ∧
    (∀ p : String, ∀ ok : Bool, p = "grpc" ∨ ok = true →
      countCmux (runSpawns p ok) = 1) ∧
    (∀ p : String, countCmux (runSpawnsOld p true) =
      if p = "grpc" then 0 else 1) := by
  refine ⟨fun ok => by cases ok <;> decide, fun p ok h => ?_, fun p => ?_⟩
  · rcases h with h | h
    · subst h; cases ok <;> decide
    · subst h
      by_cases hp : p = "grpc"
      · subst hp; decide
      · by_cases hh : p = "http" <;> simp [runSpawns, countCmux, hp, hh]
  · by_cases hp : p = "grpc"
    · subst hp; decide
    · by_cases hh : p = "http" <;> simp [runSpawnsOld, countCmux, hp, hh]

/-- Witness for C9 in http-only mode with http.New succeeding. -/
theorem cmux_spawn_new_vs_old_witness :
    countCmux (runSpawns "http" true) = 1 :=
  cmux_spawn_new_vs_old.2.1 "http" true (Or.inr rfl)

/-- C10: the newer http.New errors exactly on a nil service; every
non-nil service yields a service value and a nil error, with the group
mounted at /api/version, the routes whose method is GET, PUT, POST or
DELETE registered in order, and every other entry skipped with a
warning naming its path instead of being registered or failing New. -/
theorem httpNew_nil_error_and_method_filter (v : String) (s : ServiceModel) :
    httpNew none v = Except.error "service cannot be nil" ∧
    httpNew (some s) v = Except.ok
      { groupPrefix := "/api/" ++ v,
        registered :=
          s.httpHandlers.filter (fun r => recognizedMethod r.method),
        warnedPaths :=
          (s.httpHandlers.filter (fun r => !recognizedMethod r.method)).map
            (fun r => r.path) } := by
  exact ⟨rfl, by simp [httpNew, registerStep_fold]⟩

end SvcCommon
